import Mathlib

/-!
Shallow embedding of the transaction ingestion, deduplication, categorization
and aggregation core of `src/Main.py` (a Streamlit personal-finance app).

Modelling conventions:
* Python strings are Lean `String`s; helper functions over `List Char`
  reimplement the Python string operations used by the source
  (`in` substring test, `.lower()`, `.strip()`, `.replace`, `.split`)
  structurally, so that concrete instances evaluate in the kernel.
* `hashlib.sha256(raw).hexdigest()` in `generate_transaction_id` is modelled
  as the identity on the preimage string `raw`: the digest is injective up to
  hash collisions, which the specification declares out of model, and every
  property proved here depends only on equality or inequality of ids.
* Python floats are `Rat`; a pandas `NaN` cell is `Option.none`.  A Python
  float division by zero (which raises `ZeroDivisionError` for plain floats
  and yields an infinity for numpy floats — in neither case the value 0) is
  modelled as `Option.none`.
* A pandas `DataFrame` of transactions is a `List Txn`; a missing
  `supplierFound` column is `Option.none` in the raw row.
-/

/-- Python truthiness-style rendering used by an f-string on `row.get(...)`:
a present string renders as itself, a missing field (`None`) renders as the
four characters `None`. -/
def pyOptStr : Option String → String
  | none => "None"
  | some s => s

/-- Model of `generate_transaction_id` (Main.py lines 169-175):
`raw = f"{row.get('dateOp')}_{row.get('amount')}_{row.get('label')}_{row.get('supplierFound')}"`
followed by `hashlib.sha256(raw.encode()).hexdigest()`.  The SHA-256 digest is
modelled as the identity on `raw` (injective up to out-of-model collisions);
`dateOp` and `amount` are taken as their Python textual renderings. -/
def generate_transaction_id (dateOp amount label : String) (supplierFound : Option String) : String :=
  dateOp ++ "_" ++ amount ++ "_" ++ label ++ "_" ++ pyOptStr supplierFound

/-- Model of the column default `if "supplierFound" not in df.columns:
df["supplierFound"] = ""` performed by both `parse_csv` (line 272-273) and
`load_transactions` (line 207-208) before any id is generated. -/
def defaultSupplier : Option String → String
  | none => ""
  | some s => s

/-- `leadMatch pat text` is true when `pat` is a leading segment of `text`
(character-list version of Python `text.startswith(pat)`). -/
def leadMatch : List Char → List Char → Bool
  | [], _ => true
  | _ :: _, [] => false
  | a :: as, b :: bs => a == b && leadMatch as bs

/-- `hasSub pat text`: `pat` occurs as a contiguous segment of `text`. -/
def hasSub : List Char → List Char → Bool
  | pat, [] => pat.isEmpty
  | pat, t :: ts => leadMatch pat (t :: ts) || hasSub pat ts

/-- Model of the Python substring test `pat in text`. -/
def pyContains (pat text : String) : Bool :=
  hasSub pat.data text.data

/-- Model of Python `str.lower()` (ASCII case folding; the French keyword
constants of the source are already lower case). -/
def pyLower (s : String) : String :=
  ⟨s.data.map Char.toLower⟩

/-- A user categorization rule, one `{"keyword": ..., "category": ...}`
object of `categorization_rules.json`. -/
structure Rule where
  keyword : String
  category : String
deriving DecidableEq

/-- The fixed internal-transfer keyword list of `categorize_transaction`
(Main.py lines 236-242). -/
def internal_keywords : List String :=
  ["virement depuis livret",
   "vir virement",
   "mouvements internes",
   "virements reçus",
   "virements émis"]

/-- The searchable text `text = f"{supplier} {label}"` built from the
lowercased supplier and label (Main.py lines 231-233). -/
def searchText (supplierFound label : String) : String :=
  pyLower supplierFound ++ " " ++ pyLower label

/-- Model of `categorize_transaction(row, rules)` (Main.py lines 229-259).
The Python function receives the whole row but reads only `label` and
`supplierFound`; the bank category hints `category`/`categoryParent` are
passed here, as there, and never consulted.  Tier order: internal-transfer
keywords over the searchable text, then user rules in list order (keyword
lowercased), then auto rules (keywords used verbatim), then `"Divers"`. -/
def categorize_transaction (label supplierFound category categoryParent : String)
    (rules : List Rule) (auto_rules : List (String × List String)) : String :=
  let text := searchText supplierFound label
  if internal_keywords.any (fun k => pyContains k text) then
    "Mouvement interne"
  else
    match rules.find? (fun r => pyContains (pyLower r.keyword) text) with
    | some r => r.category
    | none =>
      match auto_rules.find? (fun ck => ck.2.any (fun k => pyContains k text)) with
      | some ck => ck.1
      | none => "Divers"

theorem categorize_internal_of_any (label supplierFound category categoryParent : String)
    (rules : List Rule) (auto_rules : List (String × List String))
    (h : internal_keywords.any (fun k => pyContains k (searchText supplierFound label)) = true) :
    categorize_transaction label supplierFound category categoryParent rules auto_rules
      = "Mouvement interne" := by
  unfold categorize_transaction
  simp only [h, if_true]

/-- All digit characters, for the model of `pd.to_numeric`. -/
def allDigits (cs : List Char) : Bool :=
  cs.all (·.isDigit)

/-- Decimal value of a digit list (most significant first). -/
def digitsVal (cs : List Char) : Nat :=
  cs.foldl (fun a c => 10 * a + (c.toNat - 48)) 0

/-- Split a character list at the first `.`, if any: the characters before
it and, when a dot is present, the characters after it. -/
def splitDotOnce : List Char → List Char × Option (List Char)
  | [] => ([], none)
  | '.' :: rest => ([], some rest)
  | c :: rest =>
    let p := splitDotOnce rest
    (c :: p.1, p.2)

/-- Model of `pd.to_numeric(..., errors='coerce')` (Main.py line 283) on the
already space-stripped, comma-to-dot text of the `amount` column: an optional
sign followed by a plain decimal numeral parses to its rational value
(built as one normalized fraction), any other text coerces to `NaN`
(`none`).  Scientific notation, which never occurs in the bank export's
amount column, is out of model. -/
def pd_to_numeric (s : String) : Option Rat :=
  if s.isEmpty then none
  else
    let sgnBody : Int × List Char :=
      match s.data with
      | '-' :: rest => (-1, rest)
      | '+' :: rest => (1, rest)
      | rest => (1, rest)
    let sgn := sgnBody.1
    match splitDotOnce sgnBody.2 with
    | (ip, none) =>
      if !ip.isEmpty && allDigits ip then some (mkRat (sgn * digitsVal ip) 1)
      else none
    | (ip, some fp) =>
      if (!ip.isEmpty || !fp.isEmpty) && allDigits ip && allDigits fp then
        some (mkRat (sgn * (digitsVal ip * 10 ^ fp.length + digitsVal fp)) (10 ^ fp.length))
      else none

/-- Model of the amount-column cleaning
`df['amount'].astype(str).str.replace(' ', '').str.replace(',', '.')`
(Main.py line 282): delete every space, turn every comma into a dot. -/
def cleanAmount (s : String) : String :=
  ⟨(s.data.filter (fun c => c != ' ')).map (fun c => if c == ',' then '.' else c)⟩

/-- Model of `pd.to_datetime(..., format='%Y-%m-%d', errors='coerce')`
(Main.py line 293) returning `(year, month, day)`: exactly `YYYY-MM-DD` with
digits, month in 1..12 and day in 1..31 (finer calendar validity is
abstracted; no claim depends on it).  Failure is `NaT` (`none`). -/
def parseDate (s : String) : Option (Nat × Nat × Nat) :=
  match s.data with
  | [y1, y2, y3, y4, '-', m1, m2, '-', d1, d2] =>
    if allDigits [y1, y2, y3, y4, m1, m2, d1, d2] then
      let m := digitsVal [m1, m2]
      let d := digitsVal [d1, d2]
      if 1 ≤ m && m ≤ 12 && 1 ≤ d && d ≤ 31 then
        some (digitsVal [y1, y2, y3, y4], m, d)
      else none
    else none
  | _ => none

/-- One raw CSV row, before any parsing; a missing `supplierFound` column is
`none`.  `category`/`categoryParent` are the bank-provided hints. -/
structure RawRow where
  dateOp : String
  label : String
  amount : String
  supplierFound : Option String
  category : String
  categoryParent : String
deriving DecidableEq

/-- One ledger transaction, a row of the `all_transactions` DataFrame after
`parse_csv`: `dateOp_str` is the `YYYY-MM` month bucket (`none` for an
unparsable date), `day` its day of month, `amount` the parsed amount
(`none` = `NaN`). -/
structure Txn where
  dateOp_str : Option String
  day : Option Nat
  label : String
  supplierFound : String
  amount : Option Rat
  category : String
  categoryParent : String
  autoCategory : String
  transaction_id : String
deriving DecidableEq

/-- Textual rendering of the parsed `dateOp` cell as interpolated by the
f-string of `generate_transaction_id`: a pandas `Timestamp` of a plain date
renders as `YYYY-MM-DD 00:00:00`, an unparsable date as `NaT`. -/
def renderTimestamp (dateOp : String) : String :=
  match parseDate dateOp with
  | some _ => dateOp ++ " 00:00:00"
  | none => "NaT"

/-- Textual rendering of the parsed `amount` cell inside the id f-string:
`NaN` renders as `nan`; a parsed value renders through `Rat`'s printer, an
abstraction of Python's float `repr` that is likewise injective on parsed
values (no claim depends on the exact digits). -/
def pyFloatStr : Option Rat → String
  | none => "nan"
  | some q => toString q

/-- Per-row work of `parse_csv` (Main.py lines 263-299), in source order:
default the missing supplier column to `""`, clean and coerce `amount`,
categorize (the categorizer reads only label and supplier), parse the date
and derive the `YYYY-MM` bucket, then compute `transaction_id` from the
converted `dateOp` and `amount` renderings, the label, and the (defaulted)
supplier. -/
def parse_row (rules : List Rule) (auto_rules : List (String × List String))
    (r : RawRow) : Txn :=
  let supplier := defaultSupplier r.supplierFound
  let amount := pd_to_numeric (cleanAmount r.amount)
  let autoCat := categorize_transaction r.label supplier r.category r.categoryParent rules auto_rules
  let d? := parseDate r.dateOp
  { dateOp_str := d?.map (fun _ => (⟨r.dateOp.data.take 7⟩ : String))
    day := d?.map (fun ymd => ymd.2.2)
    label := r.label
    supplierFound := supplier
    amount := amount
    category := r.category
    categoryParent := r.categoryParent
    autoCategory := autoCat
    transaction_id :=
      generate_transaction_id (renderTimestamp r.dateOp) (pyFloatStr amount) r.label (some supplier) }

/-- Row-wise body of `parse_csv`: every raw row yields exactly one
transaction; no row is dropped (unparsable amounts stay as `NaN` rows). -/
def parse_rows (rules : List Rule) (auto_rules : List (String × List String))
    (rows : List RawRow) : List Txn :=
  rows.map (parse_row rules auto_rules)

/-- An uploaded CSV file, already split into its header names and its rows
(the byte-level reading by `pd.read_csv` is out of model). -/
structure CsvFile where
  columns : List String
  rows : List RawRow

/-- Model of Python `str.strip()` as applied by
`df.columns = df.columns.str.strip()` (Main.py line 269). -/
def pyStrip (s : String) : String :=
  ⟨((s.data.dropWhile (·.isWhitespace)).reverse.dropWhile (·.isWhitespace)).reverse⟩

/-- The required columns `{'dateOp', 'label', 'amount'}` of Main.py line 277. -/
def required_columns : List String :=
  ["dateOp", "label", "amount"]

/-- `required_columns.issubset(df.columns)` after header stripping. -/
def requiredPresent (file : CsvFile) : Bool :=
  required_columns.all (fun c => (file.columns.map pyStrip).contains c)

/-- Model of `parse_csv` (Main.py lines 263-303).  A missing required column
raises `ValueError(f"Colonnes manquantes : ...")`, which the enclosing
`except` turns into `st.error(f"Erreur lors de la lecture du CSV : ...")`
plus a `None` return: modelled as `Except.error` carrying the message (the
Python `set` rendering of the missing names is abstracted by a comma-joined
list).  Otherwise every row is parsed and kept. -/
def parse_csv (rules : List Rule) (auto_rules : List (String × List String))
    (file : CsvFile) : Except String (List Txn) :=
  if requiredPresent file then
    Except.ok (parse_rows rules auto_rules file.rows)
  else
    Except.error
      ("Erreur lors de la lecture du CSV : Colonnes manquantes : " ++
        String.intercalate ", "
          (required_columns.filter (fun c => !(file.columns.map pyStrip).contains c)))

/-- The id column of a ledger, `st.session_state.all_transactions["transaction_id"]`. -/
def ledgerIds (L : List Txn) : List String :=
  L.map (·.transaction_id)

/-- The incoming rows that survive the duplicate filter of the import page
(Main.py lines 747-755):
`new_transactions[~new_transactions["transaction_id"].isin(existing_ids)]`
where `existing_ids` is the id set of the existing ledger.  Each incoming
row is tested against the pre-existing ids only. -/
def acceptedRows (L B : List Txn) : List Txn :=
  B.filter (fun t => !(ledgerIds L).contains t.transaction_id)

/-- The merged ledger produced by the import page (Main.py lines 747-763):
`pd.concat([st.session_state.all_transactions, new_transactions])` after the
duplicate filter — the existing ledger followed by the accepted rows. -/
def mergeLedger (L B : List Txn) : List Txn :=
  L ++ acceptedRows L B

/-- Outcome of one visit to the Import CSV page: the resulting ledger and
whether `save_transactions()` ran. -/
structure ImportOutcome where
  ledger : List Txn
  saved : Bool
deriving DecidableEq

/-- Model of the Import CSV page control flow (Main.py lines 736-765): a
parse failure (`parse_csv` returned `None`) or an empty parsed batch stops
with a warning and touches nothing; otherwise the duplicate filter runs, an
all-duplicate batch only warns, and a nonempty remainder is concatenated and
persisted. -/
def mergeImport (L : List Txn) (parsed : Except String (List Txn)) : ImportOutcome :=
  match parsed with
  | Except.error _ => ⟨L, false⟩
  | Except.ok batch =>
    if batch.isEmpty then ⟨L, false⟩
    else
      let fresh := acceptedRows L batch
      if fresh.isEmpty then ⟨L, false⟩
      else ⟨L ++ fresh, true⟩

/-- `amount < 0` on a pandas column: `NaN` compares false. -/
def amtNeg (t : Txn) : Bool :=
  match t.amount with
  | some a => decide (a < 0)
  | none => false

/-- `amount > 0` on a pandas column: `NaN` compares false. -/
def amtPos (t : Txn) : Bool :=
  match t.amount with
  | some a => decide (0 < a)
  | none => false

/-- `df['amount'].sum()`: pandas skips `NaN` cells. -/
def sumAmounts (l : List Txn) : Rat :=
  (l.filterMap (·.amount)).sum

/-- First-occurrence deduplication of category names (helper for the
`groupby` key set). -/
def uniqKeysAux : List String → List String → List String
  | _, [] => []
  | seen, c :: cs =>
    if seen.contains c then uniqKeysAux seen cs
    else c :: uniqKeysAux (c :: seen) cs

/-- Insert into a sorted list of strings (helper for the sorted `groupby`
key order). -/
def insertSorted (c : String) : List String → List String
  | [] => [c]
  | x :: xs => if c < x then c :: x :: xs else x :: insertSorted c xs

/-- The distinct category names in ascending order, as `groupby` (with its
default `sort=True`) enumerates its groups. -/
def groupKeys (l : List String) : List String :=
  (uniqKeysAux [] l).foldr insertSorted []

/-- The statistics dictionary returned by `calculate_stats`
(Main.py lines 313-384). -/
structure Stats where
  total_expenses : Rat
  total_income : Rat
  balance : Rat
  by_category : List (String × Rat)
  savings_in : Rat
  savings_out : Rat
  net_savings : Rat
  avg_daily_expense : Rat
  largest_expense : String × Rat
  expense_count : Nat
deriving DecidableEq

/-- The all-zero statistics returned for an empty ledger
(Main.py lines 315-327). -/
def emptyStats : Stats :=
  { total_expenses := 0
    total_income := 0
    balance := 0
    by_category := []
    savings_in := 0
    savings_out := 0
    net_savings := 0
    avg_daily_expense := 0
    largest_expense := ("", 0)
    expense_count := 0 }

/-- The guarded average-daily-expense division (Main.py lines 358-359):
`total_expenses / days_in_month if days_in_month > 0 else 0`, where
`days_in_month` is the maximum expense day of month (`none` when every
expense date is `NaT`, in which case the `NaN > 0` comparison is false). -/
def avg_daily_of (total : Rat) (days : Option Nat) : Rat :=
  match days with
  | some d => if 0 < d then total / (d : Rat) else 0
  | none => 0

/-- `expenses['amount'].abs().idxmax()` then label and absolute amount
(Main.py lines 364-371): the first expense of maximal absolute amount, or
`("", 0)` when there are none. -/
def largest_expense_of : List Txn → String × Rat
  | [] => ("", 0)
  | e :: es =>
    let best := es.foldl (fun b t => if |t.amount.getD 0| > |b.amount.getD 0| then t else b) e
    (best.label, |best.amount.getD 0|)

/-- Model of `calculate_stats(df, selected_month)` (Main.py lines 313-384).
`selected_month = none` models both Python `None` and `"Tous les mois"`.
The empty-ledger check comes first, before month filtering, as in the
source. -/
def calculate_stats (df : List Txn) (selected_month : Option String) : Stats :=
  if df.isEmpty then emptyStats
  else
    let dfm : List Txn := match selected_month with
      | some m => df.filter (fun t => t.dateOp_str == some m)
      | none => df
    let internal := dfm.filter (fun t => t.autoCategory == "Mouvement interne")
    let savings_in := |sumAmounts (internal.filter amtNeg)|
    let savings_out := sumAmounts (internal.filter amtPos)
    let df_filtered := dfm.filter (fun t => t.autoCategory != "Mouvement interne")
    let expenses := df_filtered.filter amtNeg
    let income := df_filtered.filter amtPos
    let total_expenses := |sumAmounts expenses|
    let total_income := sumAmounts income
    { total_expenses := total_expenses
      total_income := total_income
      balance := total_income - total_expenses
      by_category :=
        (groupKeys (expenses.map (·.autoCategory))).map
          (fun c => (c, |sumAmounts (expenses.filter (fun t => t.autoCategory == c))|))
      savings_in := savings_in
      savings_out := savings_out
      net_savings := savings_in - savings_out
      avg_daily_expense :=
        if !expenses.isEmpty && selected_month.isSome then
          avg_daily_of total_expenses (expenses.filterMap (·.day)).max?
        else 0
      largest_expense := largest_expense_of expenses
      expense_count := expenses.length }

/-- One alert emitted by `get_budget_alerts`; the f-string message text is
presentation-only and abstracted to the `status` field plus the data it is
formatted from. -/
structure BudgetAlert where
  category : String
  spent : Rat
  limit : Rat
  status : String
deriving DecidableEq

/-- `stats['by_category'][category]` lookup. -/
def lookupCat (byCat : List (String × Rat)) (c : String) : Option Rat :=
  (byCat.find? (fun p => p.1 == c)).map (·.2)

/-- A Python float division, which is undefined — an exception for plain
floats, an infinity for numpy floats, in neither case the value 0 — when the
denominator is zero: modelled as `none` in that case. -/
def pyFloatDiv (a b : Rat) : Option Rat :=
  if b = 0 then none else some (a / b)

/-- Iteration of `get_budget_alerts` over `budgets.items()`
(Main.py lines 427-448): for each budgeted category with recorded spend,
`percentage = (spent / limit) * 100` — an unguarded division — then a
`danger` alert at `percentage >= 100`, a `warning` alert at
`percentage >= 80`, nothing below.  An undefined division makes the whole
call undefined (`none`). -/
def budget_alerts_aux (byCat : List (String × Rat)) : List (String × Rat) → Option (List BudgetAlert)
  | [] => some []
  | (cat, limit) :: rest =>
    match lookupCat byCat cat with
    | none => budget_alerts_aux byCat rest
    | some spent =>
      match pyFloatDiv spent limit with
      | none => none
      | some q =>
        let percentage := q * 100
        match budget_alerts_aux byCat rest with
        | none => none
        | some tail =>
          if 100 ≤ percentage then some (⟨cat, spent, limit, "danger"⟩ :: tail)
          else if 80 ≤ percentage then some (⟨cat, spent, limit, "warning"⟩ :: tail)
          else some tail

/-- Model of `get_budget_alerts(stats, budgets)` (Main.py lines 425-448). -/
def get_budget_alerts (stats : Stats) (budgets : List (String × Rat)) : Option (List BudgetAlert) :=
  budget_alerts_aux stats.by_category budgets

/-- The characters of `text` before the first occurrence of `sep`, or all of
`text` when `sep` does not occur: Python `text.split(sep)[0]`. -/
def upToSep (sep : List Char) : List Char → List Char
  | [] => []
  | t :: ts => if leadMatch sep (t :: ts) then [] else t :: upToSep sep ts

/-- Model of `rule_to_delete.split(" → ")[0]` (Main.py line 901). -/
def pySplitHead (sep text : String) : String :=
  ⟨upToSep sep.data text.data⟩

/-- The display string of a rule in the deletion selectbox
(Main.py line 895): `f"{rule['keyword']} → {rule['category']}"`. -/
def ruleDisplay (r : Rule) : String :=
  r.keyword ++ " → " ++ r.category

/-- Model of the delete-rule button handler (Main.py lines 900-903): extract
the keyword as the text before the first `" → "` of the displayed entry,
then keep exactly the rules whose keyword differs from it. -/
def delete_rule (rules : List Rule) (display : String) : List Rule :=
  let keyword_to_delete := pySplitHead " → " display
  rules.filter (fun rule => rule.keyword != keyword_to_delete)

/-! ## Claim theorems -/

/-- C3 counterexample: `generate_transaction_id` itself does not treat a
missing supplier field as the empty string — `row.get('supplierFound')` on a
row without the field yields `None`, which the f-string renders as the text
`None`, so the raw id differs from the empty-supplier raw id. -/
theorem C3_counterexample :
    generate_transaction_id "2024-01-05" "-50.0" "Carrefour" none
      ≠ generate_transaction_id "2024-01-05" "-50.0" "Carrefour" (some "") := by
  decide

/-- C3 (amended): along the ingestion path the missing supplier column is
defaulted to the empty string before any id is computed, so a row imported
with no supplier field receives the same `transaction_id` as the same row
with supplier set to the empty string. -/
theorem C3_pipeline_missing_supplier (rules : List Rule)
    (auto_rules : List (String × List String)) (r : RawRow) :
    (parse_row rules auto_rules { r with supplierFound := none }).transaction_id
      = (parse_row rules auto_rules { r with supplierFound := some "" }).transaction_id := by
  cases r
  rfl

/-- C4 counterexample: a transaction whose bank-provided category hints both
read `Mouvements internes` (which contains the phrase `mouvements internes`
case-insensitively) but whose label/supplier text does not is categorized
`Divers`, not `Mouvement interne`: the hint columns are never consulted. -/
theorem C4_counterexample :
    pyContains "mouvements internes" (pyLower "Mouvements internes") = true ∧
    categorize_transaction "achat boulangerie" "" "Mouvements internes" "Mouvements internes" [] []
      = "Divers" := by
  decide

/-- C4 (amended): internal-transfer detection inspects only the searchable
text built from the lowercased supplier and label — the bank category hints
are ignored entirely (changing them never changes the result) — and whenever
that text contains one of the five fixed phrases of `internal_keywords`, the
result is `Mouvement interne` regardless of the rule lists. -/
theorem C4_internal_detection_text_only :
    (∀ (label supplierFound c₁ p₁ c₂ p₂ : String) (rules : List Rule)
        (auto_rules : List (String × List String)),
        categorize_transaction label supplierFound c₁ p₁ rules auto_rules
          = categorize_transaction label supplierFound c₂ p₂ rules auto_rules) ∧
    (∀ (label supplierFound category categoryParent : String) (rules : List Rule)
        (auto_rules : List (String × List String)),
        internal_keywords.any (fun k => pyContains k (searchText supplierFound label)) = true →
        categorize_transaction label supplierFound category categoryParent rules auto_rules
          = "Mouvement interne") :=
  ⟨fun _ _ _ _ _ _ _ _ => rfl,
   fun label supplierFound category categoryParent rules auto_rules h =>
     categorize_internal_of_any label supplierFound category categoryParent rules auto_rules h⟩

/-- Witness for C4: the hint columns of a concrete row are interchangeable,
and a concrete label containing an internal-transfer phrase is categorized
`Mouvement interne`. -/
theorem C4_witness :
    (categorize_transaction "achat" "" "Mouvements internes" "x" [] []
       = categorize_transaction "achat" "" "" "" [] []) ∧
    (internal_keywords.any
        (fun k => pyContains k (searchText "" "virement depuis livret a")) = true ∧
     categorize_transaction "virement depuis livret a" "" "" "" [] [] = "Mouvement interne") :=
  ⟨C4_internal_detection_text_only.1 "achat" "" "Mouvements internes" "x" "" "" [] [],
   by decide,
   C4_internal_detection_text_only.2 "virement depuis livret a" "" "" "" [] [] (by decide)⟩

/-- C7: internal-transfer detection takes precedence over user rules — when
the searchable text contains an internal-transfer phrase, the result is
`Mouvement interne` even if some user rule's keyword also matches the text. -/
theorem C7_internal_over_user_rules
    (label supplierFound category categoryParent : String)
    (rules : List Rule) (auto_rules : List (String × List String)) (r : Rule)
    (hr : r ∈ rules)
    (hmatch : pyContains (pyLower r.keyword) (searchText supplierFound label) = true)
    (hint : internal_keywords.any (fun k => pyContains k (searchText supplierFound label)) = true) :
    categorize_transaction label supplierFound category categoryParent rules auto_rules
      = "Mouvement interne" :=
  categorize_internal_of_any label supplierFound category categoryParent rules auto_rules hint

/-- Witness for C7: `Virement depuis Livret A` matches both the user rule
`livret → Épargne` and an internal-transfer phrase, and resolves to
`Mouvement interne`. -/
theorem C7_witness :
    ((⟨"livret", "Épargne"⟩ : Rule) ∈ [(⟨"livret", "Épargne"⟩ : Rule)]) ∧
    pyContains (pyLower "livret") (searchText "" "Virement depuis Livret A") = true ∧
    internal_keywords.any
        (fun k => pyContains k (searchText "" "Virement depuis Livret A")) = true ∧
    categorize_transaction "Virement depuis Livret A" "" "" "" [⟨"livret", "Épargne"⟩] []
      = "Mouvement interne" :=
  ⟨by decide, by decide, by decide,
   C7_internal_over_user_rules "Virement depuis Livret A" "" "" ""
     [⟨"livret", "Épargne"⟩] [] ⟨"livret", "Épargne"⟩ (by decide) (by decide) (by decide)⟩

/-- C9: `calculate_stats` on an empty ledger returns, for every selected
month, all-zero numeric fields, a zero largest-expense amount and an empty
category mapping, without failing. -/
theorem C9_empty_ledger_stats (selected_month : Option String) :
    (calculate_stats [] selected_month).total_expenses = 0 ∧
    (calculate_stats [] selected_month).total_income = 0 ∧
    (calculate_stats [] selected_month).balance = 0 ∧
    (calculate_stats [] selected_month).savings_in = 0 ∧
    (calculate_stats [] selected_month).savings_out = 0 ∧
    (calculate_stats [] selected_month).net_savings = 0 ∧
    (calculate_stats [] selected_month).avg_daily_expense = 0 ∧
    (calculate_stats [] selected_month).expense_count = 0 ∧
    (calculate_stats [] selected_month).largest_expense.2 = 0 ∧
    (calculate_stats [] selected_month).by_category = [] :=
  ⟨rfl, rfl, rfl, rfl, rfl, rfl, rfl, rfl, rfl, rfl⟩

/-- C10 counterexample: with two rules sharing the keyword `a → b`, deleting
the displayed entry `a → b → X` removes nothing at all — the handler splits
the display at the first `" → "` and so looks for keyword `a`. -/
theorem C10_counterexample :
    delete_rule [⟨"a → b", "X"⟩, ⟨"a → b", "Y"⟩] (ruleDisplay ⟨"a → b", "X"⟩)
      = [⟨"a → b", "X"⟩, ⟨"a → b", "Y"⟩] := by
  decide

/-- C10 (amended): when the selected rule's keyword is recovered intact from
its displayed entry (as always happens for keywords not containing `" → "`),
deletion removes every stored rule with that keyword — both duplicates with
different categories — and keeps exactly the rules with a different keyword. -/
theorem C10_delete_removes_all_with_keyword (rules : List Rule) (kw cat : String)
    (h : pySplitHead " → " (ruleDisplay ⟨kw, cat⟩) = kw) :
    (∀ r ∈ delete_rule rules (ruleDisplay ⟨kw, cat⟩), r.keyword ≠ kw) ∧
    (∀ r ∈ rules, r.keyword ≠ kw → r ∈ delete_rule rules (ruleDisplay ⟨kw, cat⟩)) := by
  unfold delete_rule
  rw [h]
  constructor
  · intro r hr
    have h2 := (List.mem_filter.mp hr).2
    simpa using h2
  · intro r hr hne
    exact List.mem_filter.mpr ⟨hr, by simpa using hne⟩

/-- Witness for C10: deleting `colruyt → Alimentation` removes both rules
with keyword `colruyt` and keeps the others. -/
theorem C10_witness :
    pySplitHead " → " (ruleDisplay ⟨"colruyt", "Alimentation"⟩) = "colruyt" ∧
    ((∀ r ∈ delete_rule [⟨"colruyt", "Alimentation"⟩, ⟨"colruyt", "Courses"⟩, ⟨"gare", "Transport"⟩]
          (ruleDisplay ⟨"colruyt", "Alimentation"⟩), r.keyword ≠ "colruyt") ∧
     (∀ r ∈ [(⟨"colruyt", "Alimentation"⟩ : Rule), ⟨"colruyt", "Courses"⟩, ⟨"gare", "Transport"⟩],
        r.keyword ≠ "colruyt" →
        r ∈ delete_rule [⟨"colruyt", "Alimentation"⟩, ⟨"colruyt", "Courses"⟩, ⟨"gare", "Transport"⟩]
          (ruleDisplay ⟨"colruyt", "Alimentation"⟩))) :=
  ⟨by decide,
   C10_delete_removes_all_with_keyword
     [⟨"colruyt", "Alimentation"⟩, ⟨"colruyt", "Courses"⟩, ⟨"gare", "Transport"⟩]
     "colruyt" "Alimentation" (by decide)⟩

/-- C1 counterexample: importing a batch that contains the same row twice
(two rows with equal `transaction_id`) into an empty ledger keeps both
copies — the duplicate filter tests incoming rows against pre-existing ids
only, so the merged ledger holds two entries with equal id. -/
theorem C1_counterexample :
    (mergeLedger []
        [⟨some "2024-01", some 5, "cafe", "", some (-5), "", "", "Divers", "T1"⟩,
         ⟨some "2024-01", some 5, "cafe", "", some (-5), "", "", "Divers", "T1"⟩]).length = 2 ∧
    ¬ (ledgerIds (mergeLedger []
        [⟨some "2024-01", some 5, "cafe", "", some (-5), "", "", "Divers", "T1"⟩,
         ⟨some "2024-01", some 5, "cafe", "", some (-5), "", "", "Divers", "T1"⟩])).Nodup := by
  decide

/-- C1 (amended): the import filter rejects exactly the incoming rows whose
id already occurs in the existing ledger, so whenever the existing ledger
and the incoming batch each contain no duplicate ids, the merged ledger
contains no two entries with equal id.  (A batch with internal duplicates,
however, keeps all its copies — see the counterexample.) -/
theorem C1_merge_preserves_distinct_ids (L B : List Txn)
    (hL : (ledgerIds L).Nodup) (hB : (ledgerIds B).Nodup) :
    (ledgerIds (mergeLedger L B)).Nodup := by
  have hacc : ledgerIds (mergeLedger L B)
      = ledgerIds L ++ (acceptedRows L B).map (·.transaction_id) := by
    simp [mergeLedger, ledgerIds]
  rw [hacc, List.nodup_append]
  refine ⟨hL, ?_, ?_⟩
  · have hsub : List.Sublist (acceptedRows L B) B := List.filter_sublist _
    have hB' : (B.map (·.transaction_id)).Nodup := hB
    exact (hsub.map (·.transaction_id)).nodup hB'
  · intro a haL haB
    obtain ⟨t, htmem, hta⟩ := List.mem_map.mp haB
    subst hta
    have h2 := (List.mem_filter.mp htmem).2
    simp [ledgerIds] at h2 haL
    obtain ⟨x, hx, hxe⟩ := haL
    exact h2 x hx hxe

/-- Witness for C1: merging a one-row batch with a fresh id into a one-row
ledger yields a ledger with pairwise distinct ids. -/
theorem C1_witness :
    (ledgerIds [⟨some "2024-01", some 3, "a", "", some (-1), "", "", "Divers", "A"⟩]).Nodup ∧
    (ledgerIds [⟨some "2024-01", some 4, "b", "", some (-2), "", "", "Divers", "B"⟩]).Nodup ∧
    (ledgerIds (mergeLedger
        [⟨some "2024-01", some 3, "a", "", some (-1), "", "", "Divers", "A"⟩]
        [⟨some "2024-01", some 4, "b", "", some (-2), "", "", "Divers", "B"⟩])).Nodup :=
  ⟨by decide, by decide,
   C1_merge_preserves_distinct_ids
     [⟨some "2024-01", some 3, "a", "", some (-1), "", "", "Divers", "A"⟩]
     [⟨some "2024-01", some 4, "b", "", some (-2), "", "", "Divers", "B"⟩]
     (by decide) (by decide)⟩

/-- C2: the import merge is idempotent — after merging batch `B` once, every
row of `B` is rejected by the duplicate filter of a second import of the
same batch (`acceptedRows` of the second pass is empty, i.e. all of `B` is
reported as duplicates), so merging `B` again returns the ledger unchanged. -/
theorem C2_merge_idempotent (L B : List Txn) :
    acceptedRows (mergeLedger L B) B = [] ∧
    mergeLedger (mergeLedger L B) B = mergeLedger L B := by
  have hacc : acceptedRows (mergeLedger L B) B = [] := by
    rw [acceptedRows, List.filter_eq_nil_iff]
    intro t ht
    simp [mergeLedger, ledgerIds, acceptedRows]
    intro hnotL
    exact ⟨t, ht, hnotL, rfl⟩
  refine ⟨hacc, ?_⟩
  conv_lhs => rw [mergeLedger, hacc]
  rw [List.append_nil]

/-- C5 counterexample: a row whose amount text `abc` fails to parse is not
excluded by the ingestor — the parsed batch still has the row, with a `NaN`
(`none`) amount. -/
theorem C5_counterexample :
    pd_to_numeric (cleanAmount "abc") = none ∧
    (parse_rows [] [] [⟨"2024-01-05", "Test", "abc", some "", "", ""⟩]).length = 1 ∧
    (parse_rows [] [] [⟨"2024-01-05", "Test", "abc", some "", "", ""⟩]).map (·.amount)
      = [none] := by
  decide

/-- C5 (amended): the ingestor keeps every row — one output transaction per
input row, a row with unparseable amount surviving with a `NaN` amount —
while `"1 234,56"` is cleaned (spaces stripped, comma to dot) and parsed to
`1234.56` and `"abc"` coerces to `NaN`. -/
theorem C5_rows_kept_and_amount_parsing :
    (∀ (rules : List Rule) (auto_rules : List (String × List String)) (rows : List RawRow),
        (parse_rows rules auto_rules rows).length = rows.length) ∧
    pd_to_numeric (cleanAmount "1 234,56") = some (1234.56 : Rat) ∧
    pd_to_numeric (cleanAmount "abc") = none := by
  refine ⟨fun _ _ rows => List.length_map rows _, ?_, by decide⟩
  have h : pd_to_numeric (cleanAmount "1 234,56") = some (mkRat 123456 100) := by decide
  rw [h, Rat.mkRat_eq_div]
  norm_num

/-- C6 counterexample: `get_budget_alerts` performs the percentage division
with no zero-denominator guard — for a category with recorded spend 50 and a
configured limit of 0 the division `spent / limit` is undefined (a
`ZeroDivisionError` for Python floats, an infinity for numpy floats, never
the value 0), modelled as the call returning `none`. -/
theorem C6_counterexample :
    get_budget_alerts { emptyStats with by_category := [("Courses", 50)] } [("Courses", 0)]
      = none := by
  decide

/-- C6 (amended): the Aggregator's average-daily-expense division is guarded
(returning 0 on a zero or absent day denominator), but the budget-alert
percentage division is not: any budgeted category with recorded spend and a
configured limit of 0 makes the alert computation undefined instead of
yielding a zero percentage. -/
theorem C6_avg_daily_guarded_budget_alerts_not (total spent : Rat) (cat : String) :
    avg_daily_of total (some 0) = 0 ∧
    avg_daily_of total none = 0 ∧
    get_budget_alerts { emptyStats with by_category := [(cat, spent)] } [(cat, 0)] = none := by
  refine ⟨rfl, rfl, ?_⟩
  simp [get_budget_alerts, budget_alerts_aux, lookupCat, pyFloatDiv]

/-- C8: a malformed upload with a missing required column makes `parse_csv`
abort with a descriptive error (the caught `ValueError` reported via
`st.error`), and the import page then leaves the ledger unchanged and
persists nothing. -/
theorem C8_malformed_upload_aborts (L : List Txn) (rules : List Rule)
    (auto_rules : List (String × List String)) (file : CsvFile)
    (h : requiredPresent file = false) :
    (∃ msg, parse_csv rules auto_rules file = Except.error msg) ∧
    mergeImport L (parse_csv rules auto_rules file) = ⟨L, false⟩ := by
  have hp : parse_csv rules auto_rules file
      = Except.error ("Erreur lors de la lecture du CSV : Colonnes manquantes : " ++
          String.intercalate ", "
            (required_columns.filter (fun c => !(file.columns.map pyStrip).contains c))) := by
    unfold parse_csv
    rw [h]
    rfl
  exact ⟨⟨_, hp⟩, by rw [hp]; rfl⟩

/-- Witness for C8: a file whose header lacks the `amount` column is
rejected and a concrete ledger is left untouched, unsaved. -/
theorem C8_witness :
    requiredPresent ⟨["dateOp", "label"], []⟩ = false ∧
    ((∃ msg, parse_csv [] [] ⟨["dateOp", "label"], []⟩ = Except.error msg) ∧
      mergeImport [⟨some "2024-01", some 3, "a", "", some (-1), "", "", "Divers", "A"⟩]
          (parse_csv [] [] ⟨["dateOp", "label"], []⟩)
        = ⟨[⟨some "2024-01", some 3, "a", "", some (-1), "", "", "Divers", "A"⟩], false⟩) :=
  ⟨by decide,
   C8_malformed_upload_aborts
     [⟨some "2024-01", some 3, "a", "", some (-1), "", "", "Divers", "A"⟩]
     [] [] ⟨["dateOp", "label"], []⟩ (by decide)⟩
